import Mathlib

/-!
Shallow embedding of `upscale_to_4k.py` (batch 4K upscaler driving ffmpeg).

Python floats are modelled as exact rationals (`ℚ`), extended with the
special values `inf`, `-inf` and `nan` where the code can meet them
(`PyFloat`).  Python ints are `ℤ` (or `ℕ` where the source guarantees
non-negativity).  Subprocess outcomes are modelled as `Option`/`Bool`
environment data, and Python exceptions as `Except` / error results.
-/

namespace Upscaler

/-! ### Configuration constants (lines 16-34 of the source) -/

inductive Mode
  | intel_qsv
  | cpu_master
deriving DecidableEq, Repr

/-- `MODE = "intel_qsv"` (line 16). -/
def MODE : Mode := Mode.intel_qsv

/-- `CPU_CRF = 16` (line 20). -/
def CPU_CRF : ℕ := 16

/-- `CPU_PRESET = "slow"` (line 21). -/
def CPU_PRESET : String := "slow"

/-- `CPU_10BIT = True` (line 22). -/
def CPU_10BIT : Bool := true

/-- `QSV_GLOBAL_QUALITY = 20` (line 26). -/
def QSV_GLOBAL_QUALITY : ℕ := 20

/-- `SKIP_IF_4K_OR_HIGHER = True` (line 30). -/
def SKIP_IF_4K_OR_HIGHER : Bool := true

/-- `PRINT_EVERY_SECONDS = 2.0` (line 33). -/
def PRINT_EVERY_SECONDS : ℚ := 2

/-- `ETA_AVG_WINDOW_SECONDS = 60.0` (line 34). -/
def ETA_AVG_WINDOW_SECONDS : ℚ := 60

/-! ### Python float values

`fmt_hms` can receive `None`, ordinary finite floats, and the special
IEEE values; we model the value space exactly as the code's branches
distinguish it. -/

inductive PyFloat
  | fin (q : ℚ)
  | inf
  | ninf
  | nan
deriving DecidableEq, Repr

/-- Python `x < 0` on a float: `nan < 0` is `False`, `-inf < 0` is `True`. -/
def PyFloat.lt0 : PyFloat → Bool
  | .fin q => decide (q < 0)
  | .inf => false
  | .ninf => true
  | .nan => false

/-- Python `x == float("inf")`. -/
def PyFloat.eqInf : PyFloat → Bool
  | .inf => true
  | _ => false

/-- Zero-pad a natural to two digits: Python `f"{n:02d}"` for `n ≥ 0`. -/
def pad2 (n : ℕ) : String :=
  let s := toString n
  if s.length < 2 then "0" ++ s else s

/-- `fmt_hms` (lines 38-45).  `none` models `seconds is None`.
`int(seconds + 0.5)` truncates toward zero; after the guard the argument
is ≥ 0.5 > 0 so it is the floor.  On `nan` neither guard fires and
`int(nan + 0.5)` raises `ValueError`, modelled as `.error`. -/
def fmt_hms (seconds : Option PyFloat) : Except String String :=
  match seconds with
  | none => .ok "??:??:??"
  | some x =>
    if x.lt0 || x.eqInf then .ok "??:??:??"
    else
      match x with
      | .fin q =>
        let s : ℕ := (Int.floor (q + 1/2)).toNat
        let h := s / 3600
        let m := (s % 3600) / 60
        let sec := s % 60
        .ok (pad2 h ++ ":" ++ pad2 m ++ ":" ++ pad2 sec)
      | _ => .error "ValueError: cannot convert float NaN to integer"

/-! ### Capability detector (lines 85-99)

An encoder-listing query (`ffmpeg -hide_banner -encoders`) either fails
(`none`) or returns the stdout text (`some out`); `name in out` is a
substring test. -/

/-- `needle` occurs at the start of `hay` (character lists). -/
def charsStart : List Char → List Char → Bool
  | _, [] => true
  | [], _ :: _ => false
  | a :: as, b :: bs => a == b && charsStart as bs

/-- `needle` occurs somewhere in `hay` (character lists). -/
def charsHave : List Char → List Char → Bool
  | [], needle => needle.isEmpty
  | hay@(_ :: t), needle => charsStart hay needle || charsHave t needle

/-- Python `needle in hay` on strings (substring containment). -/
def strContains (hay needle : String) : Bool :=
  charsHave hay.data needle.data

/-- `ffmpeg_has_encoder` (lines 85-95): `name in stdout` on success,
`False` on any exception from the subprocess query. -/
def ffmpeg_has_encoder (listing : Option String) (name : String) : Bool :=
  match listing with
  | some out => strContains out name
  | none => false

/-- `intel_qsv_available` (lines 98-99).  The two `ffmpeg_has_encoder`
calls are two separate subprocess queries, so each gets its own
outcome. -/
def intel_qsv_available (l1 l2 : Option String) : Bool :=
  ffmpeg_has_encoder l1 "hevc_qsv" || ffmpeg_has_encoder l2 "h264_qsv"

/-! ### Filter selection and command builders (lines 103-187) -/

/-- `scaler_for_source` (lines 103-113). -/
def scaler_for_source (src_w src_h : ℤ) : String :=
  if src_h ≤ 720 then
    "scale=3840:2160:flags=bicubic+accurate_rnd+full_chroma_int"
  else
    "scale=3840:2160:flags=lanczos+accurate_rnd+full_chroma_int"

/-- The `x265_params` list (lines 120-135). -/
def x265_params : List String :=
  ["aq-mode=3", "aq-strength=1.0", "psy-rd=2.0", "psy-rdoq=1.2", "rd=4",
   "rdoq-level=2", "deblock=-1,-1", "sao=1", "ref=4", "bframes=6",
   "rc-lookahead=32", "me=star", "subme=4", "strong-intra-smoothing=1"]

/-- `build_cmd_cpu_master` (lines 117-154). -/
def build_cmd_cpu_master (input_path output_path : String)
    (src_w src_h : ℤ) : List String :=
  let vf := scaler_for_source src_w src_h
  let pix_fmt := if CPU_10BIT then "yuv420p10le" else "yuv420p"
  ["ffmpeg", "-y", "-hide_banner", "-nostats", "-progress", "pipe:1",
   "-i", input_path,
   "-vf", vf,
   "-c:v", "libx265",
   "-preset", CPU_PRESET,
   "-crf", toString CPU_CRF,
   "-pix_fmt", pix_fmt,
   "-x265-params", String.intercalate ":" x265_params,
   "-c:a", "copy",
   output_path]

/-- The local `encoder = "h264_qsv"` binding (line 166). -/
def qsv_encoder : String := "h264_qsv"

/-- `build_cmd_intel_qsv` (lines 157-187). -/
def build_cmd_intel_qsv (input_path output_path : String)
    (src_w src_h : ℤ) : List String :=
  let vf := scaler_for_source src_w src_h
  ["ffmpeg", "-y", "-hide_banner", "-nostats", "-progress", "pipe:1",
   "-i", input_path,
   "-vf", vf ++ ",format=nv12",
   "-c:v", qsv_encoder,
   "-global_quality", toString QSV_GLOBAL_QUALITY,
   "-look_ahead", "1",
   "-b_strategy", "1",
   "-c:a", "copy",
   output_path]

/-! ### Progress/ETA estimator (`encode_with_eta`, lines 191-282)

The status-stream loop is a state machine.  Each consumed line carries
the wall-clock instant `now` at which `time.time()` would be read, and
is pre-classified by the `key` of the `key=value` split; the `Option`
payloads model `int(value)` / `float(value)` parses that may raise
`ValueError` (in which case the line is dropped, lines 222-242).
Blank lines, lines without `=`, and unrecognized keys are `other`. -/

inductive StatusLine
  | outTimeUs (v : Option ℤ)
  | outTimeMs (v : Option ℤ)
  | speed (v : Option ℚ)
  | progress (value : String)
  | other
deriving DecidableEq, Repr

/-- Loop state of `encode_with_eta` (lines 195-200). -/
structure EtaState where
  lastPrint : ℚ
  speedSamples : List (ℚ × ℚ)
  outTimeUs : ℤ
  speedInst : ℚ
deriving DecidableEq, Repr

/-- `last_print = 0.0`, `speed_samples = []`, `out_time_us = 0`,
`speed_inst = 0.0` (lines 195-200). -/
def initEtaState : EtaState := ⟨0, [], 0, 0⟩

/-- The `while speed_samples and speed_samples[0][0] < cutoff:
speed_samples.pop(0)` eviction loop (lines 239-240): pop samples off
the front while the front sample is strictly older than `cutoff`. -/
def dropOld (cutoff : ℚ) : List (ℚ × ℚ) → List (ℚ × ℚ)
  | [] => []
  | p :: rest => if p.1 < cutoff then dropOld cutoff rest else p :: rest

/-- `avg_speed` (lines 252-254): `None` when no samples, else the
arithmetic mean of the sample speeds. -/
def avgOf (samples : List (ℚ × ℚ)) : Option ℚ :=
  if samples.isEmpty then none
  else some ((samples.map Prod.snd).sum / (samples.length : ℚ))

/-- One emitted progress report (lines 249-269), with the named local
values the code computes for it. -/
structure Report where
  doneSec : ℚ
  remainingSec : ℚ
  avgSpeed : Option ℚ
  useSpeed : ℚ
  etaSec : Option ℚ
  pct : ℚ
  elapsedWall : ℚ
deriving DecidableEq, Repr

/-- Report computation (lines 249-260).  `avg_speed if avg_speed and
avg_speed > 0 else speed_inst` is `speed_inst` when `avg_speed` is
`None` or `0.0` (falsy) or not `> 0`, i.e. the average is used exactly
when it exists and is positive; likewise `use_speed and use_speed > 0`
is just `use_speed > 0`.  `eta_sec = float("inf")` is modelled as
`none`. -/
def mkReport (start_wall now duration : ℚ) (st : EtaState) : Report :=
  let doneSec := min ((st.outTimeUs : ℚ) / 1000000) duration
  let remainingSec := max 0 (duration - doneSec)
  let avgSpeed := avgOf st.speedSamples
  let useSpeed := match avgSpeed with
    | some a => if 0 < a then a else st.speedInst
    | none => st.speedInst
  let etaSec := if 0 < useSpeed then some (remainingSec / useSpeed) else none
  let pct := if 0 < duration then min (doneSec / duration * 100) 100 else 0
  ⟨doneSec, remainingSec, avgSpeed, useSpeed, etaSec, pct, now - start_wall⟩

/-- One iteration of the `for line in proc.stdout` body (lines 212-272):
returns the updated state and the report, if one was emitted. -/
def etaStep (start_wall duration : ℚ) (st : EtaState) (now : ℚ)
    (l : StatusLine) : EtaState × Option Report :=
  match l with
  | .outTimeUs v =>
    (match v with
     | some n => { st with outTimeUs := n }
     | none => st, none)
  | .outTimeMs v =>
    (match v with
     | some n => { st with outTimeUs := n * 1000 }
     | none => st, none)
  | .speed v =>
    (match v with
     | some sp =>
       let appended := st.speedSamples ++ [(now, sp)]
       let cutoff := now - ETA_AVG_WINDOW_SECONDS
       { st with speedInst := sp, speedSamples := dropOld cutoff appended }
     | none => st, none)
  | .progress value =>
    if PRINT_EVERY_SECONDS ≤ now - st.lastPrint ∨ value = "end" then
      ({ st with lastPrint := now }, some (mkReport start_wall now duration st))
    else (st, none)
  | .other => (st, none)

/-- The full consumption loop: fold `etaStep` over the timestamped
lines, stopping after a `progress=end` line (the `break`, line 272).
Returns the final state and the reports in emission order. -/
def etaRun (start_wall duration : ℚ) (st : EtaState) :
    List (ℚ × StatusLine) → EtaState × List Report
  | [] => (st, [])
  | (now, l) :: rest =>
    let r := etaStep start_wall duration st now l
    let isEnd : Bool := match l with
      | .progress v => v == "end"
      | _ => false
    if isEnd then (r.1, r.2.toList)
    else
      let tail := etaRun start_wall duration r.1 rest
      (tail.1, r.2.toList ++ tail.2)

/-! ### Batch controller (`main`, lines 286-350)

Per-file environment data: the outcome every external interaction would
have.  `probe = none` models `ffprobe_info` raising (subprocess failure
via `check=True`, JSON parse failure, or missing fields); `some
(duration, w, h, fps)` is its tuple result.  The `*_OutExists` flags are
the `out.exists()` checks and the `*_EncodeOk` flags tell whether
`encode_with_eta` on the corresponding command returns normally or
raises `RuntimeError` (non-zero ffmpeg exit, line 277). -/

structure FileEnv where
  probe : Option (ℚ × ℤ × ℤ × ℚ)
  qsvOutExists : Bool
  cpuOutExists : Bool
  qsvEncodeOk : Bool
  cpuEncodeOk : Bool
deriving DecidableEq, Repr

inductive FileOutcome
  | skippedHighRes
  | skippedExisting
  | completed (m : Mode)
  | fallbackSkippedExisting
  | fallbackCompleted
deriving DecidableEq, Repr

/-- An exception escaping the per-file loop body uncaught. -/
inductive BatchError
  | probeError
  | encodeError (m : Mode)
  | fallbackEncodeError
deriving DecidableEq, Repr

/-- The body of the `for video in videos` loop (lines 309-348) for one
file.  The first component records, in order, each encode attempt made
(a command built via the corresponding builder and handed to
`encode_with_eta`).  `.error` means an exception propagates out of the
loop (nothing in `main` catches it). -/
def processFile (mode : Mode) (env : FileEnv) :
    List Mode × Except BatchError FileOutcome :=
  match env.probe with
  | none => ([], .error .probeError)
  | some (_, w, h, _) =>
    if SKIP_IF_4K_OR_HIGHER = true ∧ (3840 ≤ w ∨ 2160 ≤ h) then
      ([], .ok .skippedHighRes)
    else
      let outExists := match mode with
        | .intel_qsv => env.qsvOutExists
        | .cpu_master => env.cpuOutExists
      if outExists then ([], .ok .skippedExisting)
      else
        match mode with
        | .intel_qsv =>
          if env.qsvEncodeOk then ([.intel_qsv], .ok (.completed .intel_qsv))
          else if env.cpuOutExists then
            ([.intel_qsv], .ok .fallbackSkippedExisting)
          else if env.cpuEncodeOk then
            ([.intel_qsv, .cpu_master], .ok .fallbackCompleted)
          else ([.intel_qsv, .cpu_master], .error .fallbackEncodeError)
        | .cpu_master =>
          if env.cpuEncodeOk then ([.cpu_master], .ok (.completed .cpu_master))
          else ([.cpu_master], .error (.encodeError .cpu_master))

/-- The whole `for video in videos` loop: files are processed in order;
an uncaught exception (`.error`) ends the loop (and `main`) at that
file, so later files get no entry. -/
def runBatch (mode : Mode) : List FileEnv →
    List (List Mode × Except BatchError FileOutcome)
  | [] => []
  | e :: rest =>
    let r := processFile mode e
    match r.2 with
    | .ok _ => r :: runBatch mode rest
    | .error _ => [r]

/-- `mode = MODE if (MODE != "intel_qsv" or qsv_ok) else "cpu_master"`
(line 307), computed once before the loop. -/
def effectiveMode (cfgMode : Mode) (qsv_ok : Bool) : Mode :=
  if cfgMode ≠ Mode.intel_qsv ∨ qsv_ok = true then cfgMode else .cpu_master

/-- `main` from the mode-selection point on (lines 304-350), with the
environment-check preamble (ffmpeg present, input dir present, videos
found) assumed passed: capability is queried once, the mode resolved
once, then the loop runs. -/
def mainRun (cfgMode : Mode) (l1 l2 : Option String)
    (files : List FileEnv) :
    List (List Mode × Except BatchError FileOutcome) :=
  runBatch (effectiveMode cfgMode (intel_qsv_available l1 l2)) files

/-! ## Theorems -/

/-- C6: Filter selection is a pure function of the source height only:
height ≤ 720 selects the fast bicubic-class filter, height > 720 the
higher-quality lanczos-class filter; the width is ignored, and both the
software-master and the hardware command builders place exactly this
selection in their `-vf` argument (the hardware builder appends its
`format=nv12` stage after it), so the same height always yields the
same choice in both encode modes. -/
theorem scaler_height_rule (w h : ℤ) (ip op : String) :
    (h ≤ 720 → scaler_for_source w h =
      "scale=3840:2160:flags=bicubic+accurate_rnd+full_chroma_int") ∧
    (720 < h → scaler_for_source w h =
      "scale=3840:2160:flags=lanczos+accurate_rnd+full_chroma_int") ∧
    (∀ w', scaler_for_source w h = scaler_for_source w' h) ∧
    (build_cmd_cpu_master ip op w h)[9]? = some (scaler_for_source w h) ∧
    (build_cmd_intel_qsv ip op w h)[9]? =
      some (scaler_for_source w h ++ ",format=nv12") := by
  refine ⟨fun hle => ?_, fun hgt => ?_, fun w' => rfl, rfl, rfl⟩
  · simp [scaler_for_source, hle]
  · simp [scaler_for_source, not_le.mpr hgt]

/-- Witness for C6 at heights 720 and 1080. -/
theorem scaler_height_rule_witness :
    scaler_for_source 1280 720 =
      "scale=3840:2160:flags=bicubic+accurate_rnd+full_chroma_int" ∧
    scaler_for_source 1920 1080 =
      "scale=3840:2160:flags=lanczos+accurate_rnd+full_chroma_int" :=
  ⟨(scaler_height_rule 1280 720 "in.mp4" "out.mp4").1 (by decide),
   (scaler_height_rule 1920 1080 "in.mp4" "out.mp4").2.1 (by decide)⟩

/-- C7: The capability detector returns `true` iff at least one of the
two acceptable hardware encoder identifiers (`hevc_qsv` from the first
query, `h264_qsv` from the second) appears in the corresponding
successful encoder listing, and when both queries fail it returns
`false` rather than propagating an error. -/
theorem capability_iff (l1 l2 : Option String) :
    (intel_qsv_available l1 l2 = true ↔
      (∃ out, l1 = some out ∧ strContains out "hevc_qsv" = true) ∨
      (∃ out, l2 = some out ∧ strContains out "h264_qsv" = true)) ∧
    intel_qsv_available none none = false := by
  refine ⟨?_, rfl⟩
  cases l1 <;> cases l2 <;>
    simp [intel_qsv_available, ffmpeg_has_encoder]

/-- Witness for C7: a listing carrying `hevc_qsv` yields `true`; total
query failure yields `false`. -/
theorem capability_iff_witness :
    intel_qsv_available (some "V..... hevc_qsv  listing") none = true ∧
    intel_qsv_available none none = false :=
  ⟨(capability_iff (some "V..... hevc_qsv  listing") none).1.mpr
     (Or.inl ⟨"V..... hevc_qsv  listing", rfl, by decide⟩),
   (capability_iff none none).2⟩

/-- C9: The hardware-mode command builder always emits the
lower-efficiency `h264_qsv` encoder after its `-c:v` flag — for every
source resolution and every path, independently of everything,
including a capability-query outcome in which the detector found
hardware capability — and never `hevc_qsv`. -/
theorem qsv_builder_encoder (ip op : String) (w h : ℤ)
    (l1 l2 : Option String) :
    (build_cmd_intel_qsv ip op w h)[10]? = some "-c:v" ∧
    (build_cmd_intel_qsv ip op w h)[11]? = some qsv_encoder ∧
    qsv_encoder = "h264_qsv" ∧
    qsv_encoder ≠ "hevc_qsv" ∧
    (∀ ip' op' w' h',
      (build_cmd_intel_qsv ip' op' w' h')[11]? = some qsv_encoder) ∧
    (intel_qsv_available l1 l2 = true →
      (build_cmd_intel_qsv ip op w h)[11]? = some "h264_qsv") := by
  exact ⟨rfl, rfl, rfl, by decide, fun _ _ _ _ => rfl, fun _ => rfl⟩

/-- Witness for C9: even with a capability listing in which `hevc_qsv`
was detected, the built command's encoder slot holds `h264_qsv`. -/
theorem qsv_builder_encoder_witness :
    (build_cmd_intel_qsv "in.mp4" "out.mp4" 1920 1080)[11]? =
      some "h264_qsv" :=
  (qsv_builder_encoder "in.mp4" "out.mp4" 1920 1080
    (some "V..... hevc_qsv  listing") none).2.2.2.2.2 (by decide)

/-- C10 counterexample: the duration formatter is not total — on `NaN`
neither the `seconds < 0` guard nor the `seconds == float("inf")` guard
fires (both comparisons are `False` for `NaN`), so control reaches
`int(seconds + 0.5)`, which raises `ValueError`.  The claim that the
formatter never raises an exception is therefore false at `NaN`. -/
theorem fmt_hms_nan_raises :
    fmt_hms (some PyFloat.nan) =
      Except.error "ValueError: cannot convert float NaN to integer" := rfl

/-- C10 amended: for every input other than `NaN` the formatter is
total and never raises: `None`, negative and infinite inputs give the
placeholder, and every non-negative finite input gives the zero-padded
`HH:MM:SS` rendering of the input rounded to the nearest whole second
(halves rounding up, via `int(seconds + 0.5)`). -/
theorem fmt_hms_total_except_nan (x : Option PyFloat) :
    (x = none ∨ x = some .inf ∨ x = some .ninf →
      fmt_hms x = .ok "??:??:??") ∧
    (∀ q, x = some (.fin q) → q < 0 → fmt_hms x = .ok "??:??:??") ∧
    (∀ q, x = some (.fin q) → 0 ≤ q →
      fmt_hms x = .ok
        (pad2 ((Int.floor (q + 1/2)).toNat / 3600) ++ ":" ++
         pad2 (((Int.floor (q + 1/2)).toNat % 3600) / 60) ++ ":" ++
         pad2 ((Int.floor (q + 1/2)).toNat % 60))) ∧
    (x ≠ some .nan → ∃ s, fmt_hms x = .ok s) := by
  refine ⟨?_, ?_, ?_, ?_⟩
  · rintro (rfl | rfl | rfl) <;> rfl
  · rintro q rfl hq
    simp [fmt_hms, PyFloat.lt0, PyFloat.eqInf, hq]
  · rintro q rfl hq
    simp [fmt_hms, PyFloat.lt0, PyFloat.eqInf, not_lt.mpr hq]
  · intro hx
    rcases x with _ | x
    · exact ⟨"??:??:??", rfl⟩
    rcases x with q | _ | _ | _
    · rcases lt_or_le q 0 with hq | hq
      · exact ⟨"??:??:??", by simp [fmt_hms, PyFloat.lt0, PyFloat.eqInf, hq]⟩
      · exact ⟨pad2 ((Int.floor (q + 1/2)).toNat / 3600) ++ ":" ++
          pad2 (((Int.floor (q + 1/2)).toNat % 3600) / 60) ++ ":" ++
          pad2 ((Int.floor (q + 1/2)).toNat % 60),
          by simp [fmt_hms, PyFloat.lt0, PyFloat.eqInf, not_lt.mpr hq]⟩
    · exact ⟨"??:??:??", rfl⟩
    · exact ⟨"??:??:??", rfl⟩
    · exact absurd rfl hx

/-- Witness for C10's amended theorem: 3661.0 seconds format as
`01:01:01`. -/
theorem fmt_hms_total_except_nan_witness :
    fmt_hms (some (PyFloat.fin 3661)) = .ok "01:01:01" := by
  rw [(fmt_hms_total_except_nan (some (PyFloat.fin 3661))).2.2.1 3661 rfl
    (by norm_num)]
  rw [show Int.floor ((3661 : ℚ) + 1/2) = 3661 by norm_num]
  rfl

/-! ### Estimator lemmas -/

theorem mkReport_doneSec (s n d : ℚ) (st : EtaState) :
    (mkReport s n d st).doneSec = min ((st.outTimeUs : ℚ) / 1000000) d := rfl

theorem mkReport_remainingSec (s n d : ℚ) (st : EtaState) :
    (mkReport s n d st).remainingSec =
      max 0 (d - (mkReport s n d st).doneSec) := rfl

theorem mkReport_avgSpeed (s n d : ℚ) (st : EtaState) :
    (mkReport s n d st).avgSpeed = avgOf st.speedSamples := rfl

theorem mkReport_useSpeed (s n d : ℚ) (st : EtaState) :
    (mkReport s n d st).useSpeed =
      (match avgOf st.speedSamples with
       | some a => if 0 < a then a else st.speedInst
       | none => st.speedInst) := rfl

theorem mkReport_etaSec (s n d : ℚ) (st : EtaState) :
    (mkReport s n d st).etaSec =
      (if 0 < (mkReport s n d st).useSpeed then
        some ((mkReport s n d st).remainingSec / (mkReport s n d st).useSpeed)
      else none) := rfl

theorem mkReport_pct (s n d : ℚ) (st : EtaState) :
    (mkReport s n d st).pct =
      (if 0 < d then min ((mkReport s n d st).doneSec / d * 100) 100
       else 0) := rfl

/-- A `progress` line that emits a report emits exactly
`mkReport` of the pre-line state, sets `last_print := now`, and fired
because the reporting interval elapsed or the terminal marker
arrived. -/
theorem etaStep_progress_emit (s d : ℚ) (st : EtaState) (now : ℚ)
    (v : String) (st' : EtaState) (r : Report)
    (h : etaStep s d st now (.progress v) = (st', some r)) :
    r = mkReport s now d st ∧
      st' = { st with lastPrint := now } ∧
      (PRINT_EVERY_SECONDS ≤ now - st.lastPrint ∨ v = "end") := by
  simp only [etaStep] at h
  split at h
  · rename_i hc
    injection h with h1 h2
    injection h2 with h2
    exact ⟨h2.symm, h1.symm, hc⟩
  · injection h with h1 h2
    exact absurd h2 (by simp)

/-- C3: On every report emission, `done = min(elapsed_output_time,
total_duration)`, `remaining = max(0, total_duration - done)`, and
`percent = min(done/total_duration*100, 100)` when `total_duration > 0`
and `0` otherwise; and in the concrete scenario of a 120.0-second
source receiving `speed=2.0x`, then `out_time_us=60000000`, then
`progress=end`, the report at the terminal marker shows done = 60.0 s,
percent = 50.0 %, and ETA = 30.0 s. -/
theorem report_formulas :
    (∀ s d st now v st' r,
      etaStep s d st now (.progress v) = (st', some r) →
      r.doneSec = min ((st.outTimeUs : ℚ) / 1000000) d ∧
      r.remainingSec = max 0 (d - r.doneSec) ∧
      r.pct = (if 0 < d then min (r.doneSec / d * 100) 100 else 0)) ∧
    (etaRun 0 120 initEtaState
      [(10, .speed (some 2)), (11, .outTimeUs (some 60000000)),
       (12, .progress "end")]).2 =
      [{ doneSec := 60, remainingSec := 60, avgSpeed := some 2,
         useSpeed := 2, etaSec := some 30, pct := 50,
         elapsedWall := 12 }] := by
  constructor
  · intro s d st now v st' r h
    obtain ⟨hr, -, -⟩ := etaStep_progress_emit s d st now v st' r h
    subst hr
    exact ⟨mkReport_doneSec .., mkReport_remainingSec .., mkReport_pct ..⟩
  · norm_num [etaRun, etaStep, mkReport, avgOf, dropOld, initEtaState,
      PRINT_EVERY_SECONDS, ETA_AVG_WINDOW_SECONDS]

/-- Witness for C3's general formulas at a concrete emission. -/
theorem report_formulas_witness :
    (Report.mk 60 60 none 2 (some 30) 50 12).doneSec =
      min (((EtaState.mk 0 [] 60000000 2).outTimeUs : ℚ) / 1000000) 120 ∧
    (Report.mk 60 60 none 2 (some 30) 50 12).remainingSec =
      max 0 (120 - (Report.mk 60 60 none 2 (some 30) 50 12).doneSec) ∧
    (Report.mk 60 60 none 2 (some 30) 50 12).pct =
      (if (0 : ℚ) < 120 then
        min ((Report.mk 60 60 none 2 (some 30) 50 12).doneSec / 120 * 100)
          100
      else 0) :=
  report_formulas.1 0 120 ⟨0, [], 60000000, 2⟩ 12 "end"
    ⟨12, [], 60000000, 2⟩ ⟨60, 60, none, 2, some 30, 50, 12⟩
    (by norm_num [etaStep, mkReport, avgOf, PRINT_EVERY_SECONDS])

/-- C4: On every report emission, `effective_speed` is the arithmetic
mean of the in-window samples when that mean exists and is positive,
otherwise the most recent instantaneous speed sample; ETA is
`remaining / effective_speed` when `effective_speed > 0` and the
unbounded value (`float("inf")`, modelled `none`) otherwise — and a
bounded ETA is never negative. -/
theorem effective_speed_eta (s d : ℚ) (st : EtaState) (now : ℚ)
    (v : String) (st' : EtaState) (r : Report)
    (h : etaStep s d st now (.progress v) = (st', some r)) :
    r.avgSpeed = avgOf st.speedSamples ∧
    (∀ a, avgOf st.speedSamples = some a → 0 < a → r.useSpeed = a) ∧
    (∀ a, avgOf st.speedSamples = some a → ¬ 0 < a →
      r.useSpeed = st.speedInst) ∧
    (avgOf st.speedSamples = none → r.useSpeed = st.speedInst) ∧
    (0 < r.useSpeed → r.etaSec = some (r.remainingSec / r.useSpeed)) ∧
    (¬ 0 < r.useSpeed → r.etaSec = none) ∧
    (∀ q, r.etaSec = some q → 0 ≤ q) := by
  obtain ⟨hr, -, -⟩ := etaStep_progress_emit s d st now v st' r h
  subst hr
  refine ⟨mkReport_avgSpeed .., ?_, ?_, ?_, ?_, ?_, ?_⟩
  · intro a ha hpos
    rw [mkReport_useSpeed, ha]
    simp [hpos]
  · intro a ha hneg
    rw [mkReport_useSpeed, ha]
    simp [hneg]
  · intro ha
    rw [mkReport_useSpeed, ha]
  · intro hu
    rw [mkReport_etaSec, if_pos hu]
  · intro hu
    rw [mkReport_etaSec, if_neg hu]
  · intro q hq
    rw [mkReport_etaSec] at hq
    split_ifs at hq with hu
    · rw [Option.some_inj] at hq
      subst hq
      exact div_nonneg
        (by rw [mkReport_remainingSec]; exact le_max_left _ _) hu.le

/-- Witness for C4 at a concrete emission with an empty window: the
instantaneous sample is used and the ETA is `remaining / speed`. -/
theorem effective_speed_eta_witness :
    (Report.mk 0 120 none 1 (some 120) 0 12).useSpeed = 1 ∧
    (Report.mk 0 120 none 1 (some 120) 0 12).etaSec =
      some ((Report.mk 0 120 none 1 (some 120) 0 12).remainingSec /
        (Report.mk 0 120 none 1 (some 120) 0 12).useSpeed) := by
  have h : etaStep 0 120 ⟨0, [], 0, 1⟩ 12 (.progress "end") =
      (⟨12, [], 0, 1⟩, some ⟨0, 120, none, 1, some 120, 0, 12⟩) := by
    norm_num [etaStep, mkReport, avgOf, PRINT_EVERY_SECONDS]
  have ht := effective_speed_eta 0 120 ⟨0, [], 0, 1⟩ 12 "end"
    ⟨12, [], 0, 1⟩ ⟨0, 120, none, 1, some 120, 0, 12⟩ h
  exact ⟨ht.2.2.2.1 rfl, ht.2.2.2.2.1 (by norm_num)⟩

/-- C5 counterexample: eviction happens only when a new speed sample
arrives, so at mean-evaluation time a sample older than the window can
still be included.  Concretely: a single `speed=2x` sample arrives at
wall time 0 and the next `progress` line arrives at wall time 100 with
no speed line in between; the emitted report's mean is `2`, computed
from the buffer still holding the sample taken at time 0, although that
sample is 100 s old — older than the 60 s window — at the time of the
evaluation.  This refutes the claim that a sample older than the
window at evaluation time is never included in the mean. -/
theorem stale_sample_in_mean :
    (etaRun 0 200 initEtaState
      [(0, .speed (some 2)), (100, .progress "tick")]).2 =
      [{ doneSec := 0, remainingSec := 200, avgSpeed := some 2,
         useSpeed := 2, etaSec := some 100, pct := 0,
         elapsedWall := 100 }] ∧
    (etaRun 0 200 initEtaState
      [(0, .speed (some 2)), (100, .progress "tick")]).1.speedSamples =
      [(0, 2)] ∧
    ETA_AVG_WINDOW_SECONDS < 100 - (0 : ℚ) := by
  norm_num [etaRun, etaStep, mkReport, avgOf, dropOld, initEtaState,
    PRINT_EVERY_SECONDS, ETA_AVG_WINDOW_SECONDS]

/-- Evicting strictly-too-old samples from the front of a
timestamp-sorted buffer removes exactly the samples older than the
cutoff. -/
theorem dropOld_mem (c : ℚ) (l : List (ℚ × ℚ))
    (hs : List.Pairwise (fun p q : ℚ × ℚ => p.1 ≤ q.1) l) :
    ∀ p, p ∈ dropOld c l ↔ p ∈ l ∧ ¬ p.1 < c := by
  induction l with
  | nil => simp [dropOld]
  | cons a t ih =>
    intro p
    rw [List.pairwise_cons] at hs
    rw [dropOld]
    split_ifs with ha
    · rw [ih hs.2 p]
      constructor
      · rintro ⟨hp, hc⟩
        exact ⟨List.mem_cons_of_mem a hp, hc⟩
      · rintro ⟨hp, hc⟩
        rcases List.mem_cons.mp hp with rfl | hp
        · exact absurd ha hc
        · exact ⟨hp, hc⟩
    · constructor
      · intro hp
        refine ⟨hp, ?_⟩
        rcases List.mem_cons.mp hp with rfl | hp
        · exact ha
        · exact fun hlt => ha (lt_of_le_of_lt (hs.1 p hp) hlt)
      · exact And.left

/-- C5 amended: eviction is applied when a speed sample arrives, using
the window measured from that sample's arrival time: right after the
arrival step, a sample is in the buffer (hence available to every mean
computed before the next speed sample) iff it was there (or is the new
sample) and its age at that arrival is at most the trailing window.
Samples older than the window relative to a later evaluation time can
still be included in the mean, as the counterexample shows.  The
timestamp hypotheses hold in the source because `time.time()` values
are appended in arrival order. -/
theorem window_eviction_on_arrival (s d now sp : ℚ) (st : EtaState)
    (hs : List.Pairwise (fun p q : ℚ × ℚ => p.1 ≤ q.1) st.speedSamples)
    (hle : ∀ p ∈ st.speedSamples, p.1 ≤ now) :
    ∀ p, p ∈ ((etaStep s d st now (.speed (some sp))).1).speedSamples ↔
      (p ∈ st.speedSamples ++ [(now, sp)] ∧
        now - p.1 ≤ ETA_AVG_WINDOW_SECONDS) := by
  intro p
  have hstep :
      ((etaStep s d st now (.speed (some sp))).1).speedSamples =
        dropOld (now - ETA_AVG_WINDOW_SECONDS)
          (st.speedSamples ++ [(now, sp)]) := rfl
  rw [hstep]
  have hs' : List.Pairwise (fun p q : ℚ × ℚ => p.1 ≤ q.1)
      (st.speedSamples ++ [(now, sp)]) := by
    rw [List.pairwise_append]
    refine ⟨hs, List.pairwise_singleton _ _, ?_⟩
    intro x hx y hy
    rw [List.mem_singleton] at hy
    subst hy
    exact hle x hx
  rw [dropOld_mem _ _ hs' p]
  refine and_congr_right fun _ => ?_
  rw [not_lt]
  exact sub_le_comm

/-- Witness for C5's amended theorem: with samples at times 0 and 50
and a new sample arriving at time 70 (window 60), the sample taken at
time 50 is 20 s old and is retained. -/
theorem window_eviction_on_arrival_witness :
    ((50 : ℚ), (3 : ℚ)) ∈
      ((etaStep 0 120 ⟨0, [(0, 1), (50, 3)], 0, 3⟩ 70
        (.speed (some 5))).1).speedSamples ↔
      (((50 : ℚ), (3 : ℚ)) ∈
        ((⟨0, [(0, 1), (50, 3)], 0, 3⟩ : EtaState).speedSamples ++
          [(70, 5)]) ∧
        (70 : ℚ) - (50 : ℚ) ≤ ETA_AVG_WINDOW_SECONDS) :=
  window_eviction_on_arrival 0 120 70 5 ⟨0, [(0, 1), (50, 3)], 0, 3⟩
    (by norm_num [List.pairwise_cons])
    (by intro p hp; fin_cases hp <;> norm_num) (50, 3)

/-! ### Batch controller theorems -/

/-- A file whose probe succeeds at 1920x1080 with no existing outputs
and whose hardware and software encodes both fail. -/
def failBothEnv : FileEnv :=
  { probe := some (10, 1920, 1080, 30), qsvOutExists := false,
    cpuOutExists := false, qsvEncodeOk := false, cpuEncodeOk := false }

/-- A processable file: probe succeeds at 1280x720, no existing
outputs, both encode paths would succeed. -/
def okFileEnv : FileEnv :=
  { probe := some (10, 1280, 720, 25), qsvOutExists := false,
    cpuOutExists := false, qsvEncodeOk := true, cpuEncodeOk := true }

/-- A file whose probe raises. -/
def probeFailEnv : FileEnv :=
  { probe := none, qsvOutExists := false, cpuOutExists := false,
    qsvEncodeOk := true, cpuEncodeOk := true }

/-- A second processable file, 640x480. -/
def okFileEnv2 : FileEnv :=
  { probe := some (20, 640, 480, 24), qsvOutExists := false,
    cpuOutExists := false, qsvEncodeOk := true, cpuEncodeOk := true }

/-- C1 counterexample: the second (fallback) `encode_with_eta` call in
`main` is outside the `try`, so when the software-master fallback also
fails the `RuntimeError` propagates out of the loop: the batch, not
just the file, dies.  Concretely, with a first file whose hardware and
fallback encodes both fail followed by a perfectly processable second
file, the run ends at the first file and the second file — which on
its own would complete — gets no entry.  This refutes "the failure is
fatal for that file only ... and the batch proceeds to the next
file". -/
theorem fallback_failure_aborts_batch :
    runBatch .intel_qsv [failBothEnv, okFileEnv] =
      [([.intel_qsv, .cpu_master], .error .fallbackEncodeError)] ∧
    processFile .intel_qsv okFileEnv =
      ([.intel_qsv], .ok (.completed .intel_qsv)) :=
  ⟨rfl, rfl⟩

/-- C1 amended: for every file processed in hardware mode whose encode
attempt fails, exactly one software-master fallback attempt is made
for that file (skipped when the software-master output already
exists), and no third attempt is ever made; but if that fallback
attempt also fails, the error propagates uncaught and aborts the
entire batch — subsequent files are not processed. -/
theorem fallback_once_then_abort (env : FileEnv) (rest : List FileEnv)
    (d : ℚ) (w h : ℤ) (f : ℚ)
    (hp : env.probe = some (d, w, h, f))
    (hres : ¬ (3840 ≤ w ∨ 2160 ≤ h))
    (hqout : env.qsvOutExists = false)
    (hqenc : env.qsvEncodeOk = false) :
    (processFile .intel_qsv env).1 =
      .intel_qsv :: (if env.cpuOutExists then [] else [.cpu_master]) ∧
    (env.cpuOutExists = false → env.cpuEncodeOk = false →
      runBatch .intel_qsv (env :: rest) =
        [([.intel_qsv, .cpu_master], .error .fallbackEncodeError)]) := by
  have hpf : processFile .intel_qsv env =
      (if env.cpuOutExists then
        ([.intel_qsv], .ok .fallbackSkippedExisting)
      else if env.cpuEncodeOk then
        ([.intel_qsv, .cpu_master], .ok .fallbackCompleted)
      else ([.intel_qsv, .cpu_master], .error .fallbackEncodeError)) := by
    unfold processFile
    rw [hp]
    simp [SKIP_IF_4K_OR_HIGHER, hres, hqout, hqenc]
  constructor
  · rw [hpf]
    by_cases hc : env.cpuOutExists <;> by_cases he : env.cpuEncodeOk <;>
      simp [hc, he]
  · intro hco hce
    rw [runBatch, hpf, hco, hce]
    simp

/-- Witness for C1's amended theorem at the counterexample batch. -/
theorem fallback_once_then_abort_witness :
    (processFile .intel_qsv failBothEnv).1 =
      .intel_qsv ::
        (if failBothEnv.cpuOutExists then [] else [.cpu_master]) ∧
    runBatch .intel_qsv [failBothEnv, okFileEnv] =
      [([.intel_qsv, .cpu_master], .error .fallbackEncodeError)] := by
  have ht := fallback_once_then_abort failBothEnv [okFileEnv]
    10 1920 1080 30 rfl (by decide) rfl rfl
  exact ⟨ht.1, ht.2 rfl rfl⟩

/-- C2 counterexample: `ffprobe_info(video)` is called with no
`try`/`except` around it in the loop, so a probe failure propagates and
kills the whole batch: with a first file whose probe fails followed by
a perfectly processable second file, the run ends at the first file
and the second — which on its own would complete — gets no entry.
This refutes "the batch continues with the next file". -/
theorem probe_failure_aborts_batch :
    runBatch .cpu_master [probeFailEnv, okFileEnv2] =
      [([], .error .probeError)] ∧
    processFile .cpu_master okFileEnv2 =
      ([.cpu_master], .ok (.completed .cpu_master)) :=
  ⟨rfl, rfl⟩

/-- C2 amended: in either mode, a probe failure is never retried and no
encode is attempted for the file, but it is fatal for the entire batch,
not just for that file: the exception propagates uncaught and the
remaining files are not processed. -/
theorem probe_failure_fatal_for_batch (mode : Mode) (env : FileEnv)
    (rest : List FileEnv) (hp : env.probe = none) :
    processFile mode env = ([], .error .probeError) ∧
    runBatch mode (env :: rest) = [([], .error .probeError)] := by
  have h1 : processFile mode env = ([], .error .probeError) := by
    unfold processFile
    rw [hp]
  refine ⟨h1, ?_⟩
  rw [runBatch, h1]

/-- Witness for C2's amended theorem. -/
theorem probe_failure_fatal_for_batch_witness :
    processFile .intel_qsv probeFailEnv = ([], .error .probeError) ∧
    runBatch .intel_qsv [probeFailEnv] = [([], .error .probeError)] :=
  probe_failure_fatal_for_batch .intel_qsv probeFailEnv [] rfl

/-- In software-master mode no hardware command is ever built for a
file: every attempt list is `[]` or `[cpu_master]`. -/
theorem no_qsv_attempt_cpu (env : FileEnv) :
    Mode.intel_qsv ∉ (processFile Mode.cpu_master env).1 := by
  obtain ⟨probe, qo, co, qe, ce⟩ := env
  rcases probe with - | ⟨d, w, h, f⟩
  · simp [processFile]
  · rcases co <;> rcases ce <;>
      simp only [processFile] <;> split_ifs <;> simp

/-- In software-master mode no hardware command is ever built anywhere
in the batch. -/
theorem no_qsv_attempt_batch (files : List FileEnv) :
    ∀ entry ∈ runBatch Mode.cpu_master files,
      Mode.intel_qsv ∉ entry.1 := by
  induction files with
  | nil =>
    intro entry he
    simp [runBatch] at he
  | cons e rest ih =>
    intro entry he
    rw [runBatch] at he
    rcases hE : (processFile Mode.cpu_master e).2 with err | val
    · rw [hE] at he
      rw [List.mem_singleton] at he
      subst he
      exact no_qsv_attempt_cpu e
    · rw [hE] at he
      rcases List.mem_cons.mp he with rfl | he
      · exact no_qsv_attempt_cpu e
      · exact ih entry he

/-- C8: when hardware mode is configured (`MODE = "intel_qsv"`, line
16) but the capability query finds no QSV encoder, the mode is
downgraded to software-master once for the whole batch — the effective
mode is computed from the capability result alone, before the file
loop starts, so it does not depend on any file — and no hardware
invocation is ever built for any file of the run. -/
theorem downgrade_before_batch (l1 l2 : Option String)
    (files : List FileEnv)
    (hcap : intel_qsv_available l1 l2 = false) :
    effectiveMode MODE (intel_qsv_available l1 l2) = .cpu_master ∧
    mainRun MODE l1 l2 files = runBatch .cpu_master files ∧
    ∀ entry ∈ mainRun MODE l1 l2 files, Mode.intel_qsv ∉ entry.1 := by
  have hm : effectiveMode MODE (intel_qsv_available l1 l2) =
      .cpu_master := by
    rw [hcap]
    rfl
  refine ⟨hm, ?_, ?_⟩
  · unfold mainRun
    rw [hm]
  · intro entry he
    unfold mainRun at he
    rw [hm] at he
    exact no_qsv_attempt_batch files entry he

/-- Witness for C8: both capability queries fail, so the batch runs
software-master. -/
theorem downgrade_before_batch_witness :
    effectiveMode MODE (intel_qsv_available none none) = .cpu_master ∧
    mainRun MODE none none [okFileEnv] =
      runBatch .cpu_master [okFileEnv] := by
  have ht := downgrade_before_batch none none [okFileEnv] rfl
  exact ⟨ht.1, ht.2.1⟩

end Upscaler
